import Mathlib

/-!
# Verification of the Seeeduino ThingSpeak uploader

Shallow embedding of src/thingspeak-uploader/uploader.py.

Conventions of the embedding:
* Text lines are `List Char`; raw serial bytes are `List Nat` (values < 256).
* Python numbers are modelled by `ℚ` (float) and `ℤ` (int).
* A Python dict of sensor fields becomes the `SensorRecord` structure: for
  each field, `none` = key absent, `some none` = key bound to `None` (the
  NA marker), `some (some v)` = key bound to the numeric value `v`.
* A function that can raise an uncaught exception returns `Option`:
  `none` is the exception escaping (and killing the process).
* `re.search` with the patterns used here (a literal, one greedy character
  class group, then a literal whose first character is outside the class)
  reduces to `searchCapture`: the leftmost position where the literal
  prefix, a maximal non-empty run of class characters, and the literal
  suffix all match.  The character class `\d` is modelled as the ASCII
  digits, the only digits the device firmware emits.
* The network and the wall clock are oracles fed into the loop step
  (`Tick.netOk`, `Tick.now`); `time.time()` is an absolute epoch reading.
-/

/-- ASCII decimal digit, the model of the regex class `\d`. -/
def isAsciiDigit (c : Char) : Bool := 48 ≤ c.toNat && c.toNat ≤ 57

/-- Character class `[\d.]` of the temperature pattern. -/
def isDigitDot (c : Char) : Bool := isAsciiDigit c || c = '.'

/-- Whitespace stripped by `str.strip` (ASCII subset). -/
def pyWs (c : Char) : Bool :=
  c = ' ' || c = '\t' || c = '\n' || c = '\x0d' || c = '\x0b' || c = '\x0c'

/-- Python `str.strip()`: trim whitespace from both ends. -/
def pyStrip (s : List Char) : List Char :=
  ((s.dropWhile pyWs).reverse.dropWhile pyWs).reverse

/-- Python `pat in s`: substring containment. -/
def hasSubstr (pat : List Char) : List Char → Bool
  | [] => pat.isEmpty
  | c :: rest => pat.isPrefixOf (c :: rest) || hasSubstr pat rest

/-- Python `int` of a non-empty ASCII digit string (empty string gives 0,
used only for the halves of a float literal). -/
def pyDigitsVal (s : List Char) : ℤ :=
  s.foldl (fun a c => 10 * a + ((c.toNat : ℤ) - 48)) 0

/-- The integer content of a decimal literal over the class `[\d.]+`:
`some (n, k)` with value n / 10^k when the string has at most one dot and
at least one digit, `none` otherwise. -/
def pyFloatParts (s : List Char) : Option (ℤ × ℕ) :=
  if s.count '.' = 0 then
    if s = [] then none else some (pyDigitsVal s, 0)
  else if s.count '.' = 1 then
    let a := s.takeWhile (fun c => c ≠ '.')
    let b := (s.dropWhile (fun c => c ≠ '.')).drop 1
    if a = [] && b = [] then none
    else some (pyDigitsVal a * 10 ^ b.length + pyDigitsVal b, b.length)
  else none

/-- Python `float` applied to a string drawn from the class `[\d.]+`:
defined exactly when the string has at most one dot and at least one
digit; `none` models the `ValueError` that `float` raises otherwise. -/
def pyFloatDD (s : List Char) : Option ℚ :=
  (pyFloatParts s).map (fun p => (p.1 : ℚ) / (10 : ℚ) ^ p.2)

/-- Model of `re.search` for a pattern of the form `pre(cls+)post` where the first
character of `post` is not in the class `cls`: returns the capture group of
the leftmost match, scanning start positions left to right. -/
def searchCapture (pre : List Char) (cls : Char → Bool) (post : List Char) :
    List Char → Option (List Char)
  | [] => none
  | c :: rest =>
    if pre.isPrefixOf (c :: rest) then
      let after := (c :: rest).drop pre.length
      let run := after.takeWhile cls
      if !run.isEmpty && post.isPrefixOf (after.drop run.length) then some run
      else searchCapture pre cls post rest
    else searchCapture pre cls post rest

/-- The regex `Temp: ([\d.]+)C` of uploader.py line 58. -/
def tempCapture (line : List Char) : Option (List Char) :=
  searchCapture ("Temp: ".toList) isDigitDot ("C".toList) line

/-- The regex `Water: (\d+)%` of uploader.py line 65. -/
def waterCapture (line : List Char) : Option (List Char) :=
  searchCapture ("Water: ".toList) isAsciiDigit ("%".toList) line

/-- The regex `Sound: (\d+)%` of uploader.py line 72. -/
def soundCapture (line : List Char) : Option (List Char) :=
  searchCapture ("Sound: ".toList) isAsciiDigit ("%".toList) line

/-- The regex `Light: (\d+) lux` of uploader.py line 79. -/
def lightCapture (line : List Char) : Option (List Char) :=
  searchCapture ("Light: ".toList) isAsciiDigit (" lux".toList) line

/-- The dict produced by `parse_sensor_data`: each field is absent,
explicitly `None`, or a number. -/
structure SensorRecord where
  water_temp : Option (Option ℚ)
  water_level : Option (Option ℤ)
  sound : Option (Option ℤ)
  light : Option (Option ℤ)
deriving DecidableEq, Repr

/-- Python truthiness of the record dict: it has at least one key. -/
def recordNonempty (r : SensorRecord) : Bool :=
  r.water_temp.isSome || r.water_level.isSome || r.sound.isSome || r.light.isSome

/-- The temperature block of `parse_sensor_data` (uploader.py lines
58-62): the value bound to `water_temp` (`none` = key left absent), or an
overall `none` when `float` raises on the captured text. -/
def tempField (line : List Char) : Option (Option (Option ℚ)) :=
  match tempCapture line with
  | some g =>
    match pyFloatDD g with
    | some q => some (some (some q))
    | none => none
  | none =>
    some (if hasSubstr ("Temp: NA".toList) line then some none else none)

/-- The water-level block of `parse_sensor_data` (uploader.py lines 65-69). -/
def waterLevelField (line : List Char) : Option (Option ℤ) :=
  match waterCapture line with
  | some g => some (some (pyDigitsVal g))
  | none => if hasSubstr ("Water: NA".toList) line then some none else none

/-- The sound block of `parse_sensor_data` (uploader.py lines 72-76). -/
def soundField (line : List Char) : Option (Option ℤ) :=
  match soundCapture line with
  | some g => some (some (pyDigitsVal g))
  | none => if hasSubstr ("Sound: NA".toList) line then some none else none

/-- The light block of `parse_sensor_data` (uploader.py lines 79-83). -/
def lightField (line : List Char) : Option (Option ℤ) :=
  match lightCapture line with
  | some g => some (some (pyDigitsVal g))
  | none => if hasSubstr ("Light: NA".toList) line then some none else none

/-- Embedding of `parse_sensor_data` (uploader.py lines 49-85): the four field blocks
run in order on the same line; each sets its key from the numeric pattern
when that matches, else to `None` when the field's NA token occurs as a
substring, else leaves the key absent.  The overall `none` result models
the uncaught `ValueError` when `float` rejects the temperature capture. -/
def parse_sensor_data (line : List Char) : Option SensorRecord :=
  match tempField line with
  | none => none
  | some wtv =>
    some ⟨wtv, waterLevelField line, soundField line, lightField line⟩

/-- A value of the outbound HTTP query: the API key string or a numeric
field value. -/
inductive PValue where
  | str (s : String)
  | rat (q : ℚ)
  | int (z : ℤ)
deriving DecidableEq, Repr

/-- Payload entry for `field1` (uploader.py lines 99-100): present exactly
when `water_temp` is a key with a non-`None` value. -/
def tempEntry : Option (Option ℚ) → List (String × PValue)
  | some (some v) => [("field1", PValue.rat v)]
  | _ => []

/-- Payload entry for an integer field slot (uploader.py lines 101-106). -/
def intEntry (nm : String) : Option (Option ℤ) → List (String × PValue)
  | some (some v) => [(nm, PValue.int v)]
  | _ => []

/-- The query dict built by `send_data_to_thingspeak` (uploader.py lines
96-106), as an insertion-ordered association list: `api_key`, then
`field1`=water_temp, `field2`=water_level, `field3`=light, `field4`=sound,
each included only when present and not `None`. -/
def thingspeakPayload (api_key : String) (d : SensorRecord) :
    List (String × PValue) :=
  ("api_key", PValue.str api_key) ::
    (tempEntry d.water_temp ++ intEntry "field2" d.water_level ++
      intEntry "field3" d.light ++ intEntry "field4" d.sound)

/-- Embedding of `send_data_to_thingspeak` (uploader.py lines 88-123): issues the GET
request with `thingspeakPayload` and returns `True` on success, `False` on
any `RequestException`; the network outcome is the oracle `netOk`. -/
def send_data_to_thingspeak (netOk : Bool) (api_key : String)
    (d : SensorRecord) : List (String × PValue) × Bool :=
  (thingspeakPayload api_key d, netOk)

/-- A UTF-8 continuation byte. -/
def contByte (b : ℕ) : Bool := 128 ≤ b && b ≤ 191

/-- Valid range of a second byte given the lead byte of a 3-byte sequence
(excludes overlong forms and surrogates, as CPython's codec does). -/
def cont3Fst (lead b : ℕ) : Bool :=
  if lead = 224 then 160 ≤ b && b ≤ 191
  else if lead = 237 then 128 ≤ b && b ≤ 159
  else contByte b

/-- Valid range of a second byte given the lead byte of a 4-byte sequence. -/
def cont4Fst (lead b : ℕ) : Bool :=
  if lead = 240 then 144 ≤ b && b ≤ 191
  else if lead = 244 then 128 ≤ b && b ≤ 143
  else contByte b

/-- One step of UTF-8 decoding with errors="ignore": given the lead byte
and the remaining bytes, the decoded character (or `none` for an invalid
maximal subpart, which is dropped) and how many further bytes were
consumed. -/
def utf8Step (b : ℕ) (rest : List ℕ) : Option Char × ℕ :=
  if b ≤ 127 then (some (Char.ofNat b), 0)
  else if 194 ≤ b && b ≤ 223 then
    match rest with
    | [] => (none, 0)
    | b1 :: _ =>
      if contByte b1 then (some (Char.ofNat ((b - 192) * 64 + (b1 - 128))), 1)
      else (none, 0)
  else if 224 ≤ b && b ≤ 239 then
    match rest with
    | [] => (none, 0)
    | [b1] => if cont3Fst b b1 then (none, 1) else (none, 0)
    | b1 :: b2 :: _ =>
      if cont3Fst b b1 then
        if contByte b2 then
          (some (Char.ofNat ((b - 224) * 4096 + (b1 - 128) * 64 + (b2 - 128))), 2)
        else (none, 1)
      else (none, 0)
  else if 240 ≤ b && b ≤ 244 then
    match rest with
    | [] => (none, 0)
    | [b1] => if cont4Fst b b1 then (none, 1) else (none, 0)
    | [b1, b2] =>
      if cont4Fst b b1 then
        if contByte b2 then (none, 2) else (none, 1)
      else (none, 0)
    | b1 :: b2 :: b3 :: _ =>
      if cont4Fst b b1 then
        if contByte b2 then
          if contByte b3 then
            (some (Char.ofNat ((b - 240) * 262144 + (b1 - 128) * 4096 +
                (b2 - 128) * 64 + (b3 - 128))), 3)
          else (none, 2)
        else (none, 1)
      else (none, 0)
  else (none, 0)

/-- Fuel-indexed driver of the decoder; every step consumes at least the
lead byte, so fuel equal to the input length always suffices. -/
def decodeUtf8IgnoreAux : ℕ → List ℕ → List Char
  | 0, _ => []
  | _, [] => []
  | fuel + 1, b :: rest =>
    let st := utf8Step b rest
    (match st.1 with | some c => [c] | none => []) ++
      decodeUtf8IgnoreAux fuel (rest.drop st.2)

/-- Embedding of `bytes.decode("utf-8", errors="ignore")` (uploader.py line 157): a
total UTF-8 decoder that silently drops each maximal invalid subpart
instead of raising or emitting a replacement character. -/
def decodeUtf8Ignore (bs : List ℕ) : List Char :=
  decodeUtf8IgnoreAux bs.length bs

/-- A scalar YAML value as seen by `load_config` for the
`send_interval_minutes` key. -/
inductive YVal where
  | ynum (q : ℚ)
  | ystr (s : String)
  | ynull
deriving DecidableEq, Repr

/-- Python `float()` applied to a whitespace-stripped string: an optional
sign, then a run of digits with at most one dot and at least one digit,
then an optional exponent part `e`/`E` with an optionally signed digit
run; anything else (for instance a non-numeric string such as "abc", a
bare sign, a bare dot, or trailing garbage) gives `none`, the
`ValueError` that `float()` raises.  The special forms "inf"/"nan" and
digit-group underscores have no ℚ counterpart and stay outside the
model. -/
def pyFloatLit (t : List Char) : Option ℚ :=
  let signed : Bool × List Char :=
    match t with
    | '-' :: u => (true, u)
    | '+' :: u => (false, u)
    | u => (false, u)
  let mant := signed.2.takeWhile isDigitDot
  let rest := signed.2.drop mant.length
  match pyFloatDD mant with
  | none => none
  | some m0 =>
    let m := if signed.1 then -m0 else m0
    match rest with
    | [] => some m
    | e :: es =>
      if e = 'e' || e = 'E' then
        let esigned : Bool × List Char :=
          match es with
          | '-' :: v => (true, v)
          | '+' :: v => (false, v)
          | v => (false, v)
        if !esigned.2.isEmpty && esigned.2.all isAsciiDigit then
          let k := (pyDigitsVal esigned.2).toNat
          some (if esigned.1 then m / (10 : ℚ) ^ k else m * (10 : ℚ) ^ k)
        else none
      else none

/-- Python `float()` applied to a YAML scalar: numbers pass through,
strings are parsed as a float literal after stripping whitespace
(`ValueError` on failure), `None` raises `TypeError` (`none`). -/
def pyFloatOfYVal : YVal → Option ℚ
  | YVal.ynum q => some q
  | YVal.ystr s => pyFloatLit (pyStrip s.toList)
  | YVal.ynull => none

/-- The configuration mapping read from config.yml, restricted to the keys
`load_config` consumes.  For `serial_port` and `baud_rate` the outer
`Option` is key presence and the inner one distinguishes a YAML-null
binding (kept as `None` by the `{**DEFAULT, **config}` merge) from a
value.  For the api key, absence and a null binding behave identically
everywhere downstream (both falsy), so one `none` covers both. -/
structure ConfigFile where
  thingspeak_api_key : Option String
  serial_port : Option (Option String)
  baud_rate : Option (Option ℤ)
  send_interval_minutes : Option YVal
deriving DecidableEq, Repr

/-- The configuration source: the file may be missing, unparsable YAML, or
a parsed mapping. -/
inductive ConfigSource where
  | missing
  | unparsable
  | parsed (f : ConfigFile)
deriving DecidableEq, Repr

/-- The merged settings record returned by `load_config`: only the api
key and the interval are validated, so a null-bound `serial_port` or
`baud_rate` survives the merge as `None` (`none` here). -/
structure Config where
  thingspeak_api_key : String
  serial_port : Option String
  baud_rate : Option ℤ
  send_interval_minutes : ℚ
deriving DecidableEq, Repr

/-- The merged `send_interval_minutes` value: the file's entry when
present, else the default 0.25 (uploader.py lines 16-21, 31). -/
def mergedInterval (f : ConfigFile) : YVal :=
  f.send_interval_minutes.getD (YVal.ynum (1 / 4))

/-- Embedding of `load_config` (uploader.py lines 24-46): fatal `FileNotFoundError`
when the file is missing; a YAML parse error propagates uncaught; then the
file mapping is merged over the defaults, `send_interval_minutes` is
coerced with `float()` (a `TypeError`/`ValueError` is re-raised as
`ValueError`), must be strictly positive, and `thingspeak_api_key` must be
truthy (present and non-empty). -/
def load_config : ConfigSource → Except String Config
  | ConfigSource.missing => Except.error "config.yml not found"
  | ConfigSource.unparsable => Except.error "yaml parse error"
  | ConfigSource.parsed f =>
    match pyFloatOfYVal (mergedInterval f) with
    | none => Except.error "send_interval_minutes must be a number"
    | some m =>
      if m ≤ 0 then Except.error "send_interval_minutes must be positive"
      else
        match f.thingspeak_api_key with
        | none => Except.error "thingspeak_api_key is not set"
        | some k =>
          if k = "" then Except.error "thingspeak_api_key is not set"
          else Except.ok
            { thingspeak_api_key := k
              serial_port := f.serial_port.getD (some "/dev/ttyACM0")
              baud_rate := f.baud_rate.getD (some 115200)
              send_interval_minutes := m }

/-- The mutable state of the main loop (uploader.py lines 151-152):
`last_send` starts at the float 0.0 and `latest_data` at the empty dict. -/
structure LoopState where
  last_send : ℚ
  latest_data : SensorRecord
deriving DecidableEq, Repr

/-- The loop state just before the first iteration. -/
def initState : LoopState := ⟨0, ⟨none, none, none, none⟩⟩

/-- One loop iteration's external inputs: the decoded serial line if bytes
were waiting (`none` = `ser.in_waiting == 0`), the `time.time()` reading,
and whether the HTTP request would succeed. -/
structure Tick where
  line : Option (List Char)
  now : ℚ
  netOk : Bool
deriving DecidableEq, Repr

/-- Observable outcome of one loop iteration: the next state, the record
handed to `send_data_to_thingspeak` when an attempt was made, its result,
and whether the retry warning of uploader.py line 174 was logged. -/
structure TickOut where
  state : LoopState
  attempted : Option SensorRecord
  sendOk : Bool
  warned : Bool
deriving DecidableEq, Repr

/-- The send half of a loop iteration (uploader.py lines 167-174): if the
held dict is non-empty and `current_time - last_send` has reached the
interval, attempt the upload; on success advance `last_send` to
`current_time`, on failure leave the state unchanged and log the retry
warning. -/
def sendPhase (intervalSecs : ℚ) (s : LoopState) (now : ℚ) (netOk : Bool) :
    TickOut :=
  if recordNonempty s.latest_data && decide (intervalSecs ≤ now - s.last_send) then
    if recordNonempty s.latest_data then
      if netOk then ⟨⟨now, s.latest_data⟩, some s.latest_data, true, false⟩
      else ⟨s, some s.latest_data, false, true⟩
    else ⟨s, none, false, false⟩
  else ⟨s, none, false, false⟩

/-- One full iteration of the `while True` loop (uploader.py lines
155-176): read and strip a waiting line; `continue` past blank or "==="
banner lines (skipping the send check this tick); parse the line and
overwrite `latest_data` only when the parsed dict is non-empty; then run
the send phase.  The `none` result is the uncaught parse exception killing
the process. -/
def stepTick (intervalSecs : ℚ) (s : LoopState) (tk : Tick) : Option TickOut :=
  match tk.line with
  | some raw =>
    let line := pyStrip raw
    if line.isEmpty || hasSubstr ("===".toList) line then
      some ⟨s, none, false, false⟩
    else
      match parse_sensor_data line with
      | none => none
      | some d =>
        let s1 := if recordNonempty d then ⟨s.last_send, d⟩ else s
        some (sendPhase intervalSecs s1 tk.now tk.netOk)
  | none => some (sendPhase intervalSecs s tk.now tk.netOk)

/-- Iterating `stepTick` over a list of tick inputs. -/
def runTicks (intervalSecs : ℚ) (s : LoopState) : List Tick → Option LoopState
  | [] => some s
  | tk :: rest =>
    match stepTick intervalSecs s tk with
    | none => none
    | some o => runTicks intervalSecs o.state rest

/-- The record parsed from the single-field line "Water: 50%". -/
def recWater : SensorRecord := ⟨none, some (some 50), none, none⟩

/-- The record parsed from the line "Temp: NA": the key present, bound to
`None`, and every other key absent. -/
def recNA : SensorRecord := ⟨some none, none, none, none⟩

/-- The send phase never touches the held record. -/
lemma sendPhase_latest_data (intervalSecs : ℚ) (s : LoopState) (now : ℚ)
    (nk : Bool) :
    (sendPhase intervalSecs s now nk).state.latest_data = s.latest_data := by
  unfold sendPhase
  split_ifs <;> rfl

/-- When the held record is non-empty and the interval has elapsed, the
send phase attempts the held record: on success it advances `last_send`,
on failure it leaves the state unchanged and warns. -/
lemma sendPhase_eligible (intervalSecs : ℚ) (s : LoopState) (now : ℚ)
    (nk : Bool) (hne : recordNonempty s.latest_data = true)
    (ht : intervalSecs ≤ now - s.last_send) :
    sendPhase intervalSecs s now nk =
      if nk then ⟨⟨now, s.latest_data⟩, some s.latest_data, true, false⟩
      else ⟨s, some s.latest_data, false, true⟩ := by
  simp [sendPhase, hne, ht]

/-- When the interval has not elapsed, the send phase is a no-op. -/
lemma sendPhase_too_early (intervalSecs : ℚ) (s : LoopState) (now : ℚ)
    (nk : Bool) (ht : now - s.last_send < intervalSecs) :
    sendPhase intervalSecs s now nk = ⟨s, none, false, false⟩ := by
  simp [sendPhase, not_le.mpr ht]

/-- A tick with no waiting line is just the send phase. -/
lemma stepTick_no_line (intervalSecs : ℚ) (s : LoopState) (now : ℚ)
    (nk : Bool) :
    stepTick intervalSecs s ⟨none, now, nk⟩ =
      some (sendPhase intervalSecs s now nk) := rfl

/-- A tick whose line survives the blank/banner filter and parses to a
non-empty record overwrites the slot and runs the send phase on it. -/
lemma stepTick_good_line (intervalSecs : ℚ) (s : LoopState)
    (raw : List Char) (now : ℚ) (nk : Bool) (d : SensorRecord)
    (hb : (pyStrip raw).isEmpty = false)
    (hm : hasSubstr ("===".toList) (pyStrip raw) = false)
    (hp : parse_sensor_data (pyStrip raw) = some d)
    (hne : recordNonempty d = true) :
    stepTick intervalSecs s ⟨some raw, now, nk⟩ =
      some (sendPhase intervalSecs ⟨s.last_send, d⟩ now nk) := by
  have hm2 : hasSubstr [Char.ofNat 61, Char.ofNat 61, Char.ofNat 61] (pyStrip raw) = false := by
    simpa using hm
  simp [stepTick, hb, hm, hm2, hp, hne]


/-- C5: `parse_sensor_data` applied to the exact line
"Temp: 25.0C | Water: 50% | Sound: 45% | Light: 123 lux" returns exactly
the record with water_temp = 25.0 (a rational, parsed by `float`),
water_level = 50, sound = 45 and light = 123 (integers, parsed by
`int`). -/
theorem c5_example_line_parses :
    parse_sensor_data
        ("Temp: 25.0C | Water: 50% | Sound: 45% | Light: 123 lux".toList) =
      some ⟨some (some 25), some (some 50), some (some 45), some (some 123)⟩ := by
  have hf : pyFloatDD ("25.0".toList) = some 25 := by
    rw [pyFloatDD, (by decide : pyFloatParts ("25.0".toList) = some (250, 1))]
    norm_num [Option.map_some]
  have hc : tempCapture
      ("Temp: 25.0C | Water: 50% | Sound: 45% | Light: 123 lux".toList) =
      some ("25.0".toList) := by decide
  have h1 : tempField
      ("Temp: 25.0C | Water: 50% | Sound: 45% | Light: 123 lux".toList) =
      some (some (some 25)) := by
    simp only [tempField, hc, hf]
  simp only [parse_sensor_data, h1,
    (by decide : waterLevelField
      ("Temp: 25.0C | Water: 50% | Sound: 45% | Light: 123 lux".toList) =
      some (some 50)),
    (by decide : soundField
      ("Temp: 25.0C | Water: 50% | Sound: 45% | Light: 123 lux".toList) =
      some (some 45)),
    (by decide : lightField
      ("Temp: 25.0C | Water: 50% | Sound: 45% | Light: 123 lux".toList) =
      some (some 123))]

/-- C2 (code bug): on the line "Temp: .C" the temperature pattern
`Temp: ([\d.]+)C` matches with capture ".", but `float(".")` raises
`ValueError`, so `parse_sensor_data` does not return a record: the
exception escapes (the `none` result of the model) and kills the process,
contradicting the claim that every line yields a record and that no
extraction outcome escalates to a fatal condition. -/
theorem c2_parse_crashes_on_dot :
    tempCapture ("Temp: .C".toList) = some (".".toList) ∧
    pyFloatDD (".".toList) = none ∧
    parse_sensor_data ("Temp: .C".toList) = none := by
  refine ⟨by decide, by decide, by decide⟩

/-- C1 (counterexample): interval = 1 minute (60 s), program started at
wall clock 1700000000 s, first non-empty record ("Water: 50%") extracted
at the very first tick (loop time t = 0 s), no upload ever succeeded.
Because `last_send` is initialised to the float 0.0 — an absolute epoch
reading, not "never" — the gate condition
`time.time() - last_send >= 60` is already true, so the upload attempt
happens at loop time t = 0 s, not at or after t = 60 s. -/
theorem c1_counterexample_immediate_send :
    initState.last_send = 0 ∧
    stepTick 60 initState ⟨some ("Water: 50%".toList), 1700000000, true⟩ =
      some ⟨⟨1700000000, recWater⟩, some recWater, true, false⟩ := by
  refine ⟨rfl, ?_⟩
  rw [stepTick_good_line 60 initState _ 1700000000 true recWater (by decide)
    (by decide) (by decide) (by decide)]
  rw [sendPhase_eligible 60 ⟨initState.last_send, recWater⟩ 1700000000 true
    (by decide) (by norm_num [initState])]
  simp [initState]

/-- C1 (amended): `last_send` starts at the float 0.0 and is compared
against the absolute `time.time()` reading, so the gate does NOT wait a
full interval before the first attempt: whenever the wall clock reads at
least 60 s (always in practice), a first non-empty record is attempted at
the very tick it arrives.  The full-interval wait holds only relative to
`last_send`: a tick less than 60 s after `last_send` attempts nothing,
and any tick at or after that with a non-empty held record attempts an
upload. -/
theorem c1_amended_gate_behaviour :
    (∀ now : ℚ, ∀ nk : Bool, (60 : ℚ) ≤ now →
      stepTick 60 initState ⟨some ("Water: 50%".toList), now, nk⟩ =
        some (if nk then ⟨⟨now, recWater⟩, some recWater, true, false⟩
              else ⟨⟨0, recWater⟩, some recWater, false, true⟩)) ∧
    (∀ s : LoopState, ∀ now : ℚ, ∀ nk : Bool,
      now - s.last_send < 60 →
      stepTick 60 s ⟨none, now, nk⟩ = some ⟨s, none, false, false⟩) ∧
    (∀ s : LoopState, ∀ now : ℚ, ∀ nk : Bool,
      recordNonempty s.latest_data = true → (60 : ℚ) ≤ now - s.last_send →
      (stepTick 60 s ⟨none, now, nk⟩).map TickOut.attempted =
        some (some s.latest_data)) := by
  refine ⟨?_, ?_, ?_⟩
  · intro now nk h
    rw [stepTick_good_line 60 initState _ now nk recWater (by decide)
      (by decide) (by decide) (by decide)]
    rw [sendPhase_eligible 60 ⟨initState.last_send, recWater⟩ now nk
      (by decide) (by simpa [initState] using h)]
    cases nk <;> simp [initState]
  · intro s now nk h
    rw [stepTick_no_line, sendPhase_too_early 60 s now nk h]
  · intro s now nk hne ht
    rw [stepTick_no_line, sendPhase_eligible 60 s now nk hne ht]
    cases nk <;> simp

/-- C1 (witness for the amended theorem): instantiated at wall clock
1700000000 for the first-tick attempt, and at a state that last sent at
time 1000 for both sides of the gate. -/
theorem c1_amended_gate_behaviour_witness :
    ((60 : ℚ) ≤ 1700000000 ∧
      stepTick 60 initState ⟨some ("Water: 50%".toList), 1700000000, true⟩ =
        some ⟨⟨1700000000, recWater⟩, some recWater, true, false⟩) ∧
    ((1030 : ℚ) - (⟨1000, recWater⟩ : LoopState).last_send < 60 ∧
      stepTick 60 ⟨1000, recWater⟩ ⟨none, 1030, true⟩ =
        some ⟨⟨1000, recWater⟩, none, false, false⟩) ∧
    (recordNonempty (⟨1000, recWater⟩ : LoopState).latest_data = true ∧
      (60 : ℚ) ≤ 1060 - (⟨1000, recWater⟩ : LoopState).last_send ∧
      (stepTick 60 ⟨1000, recWater⟩ ⟨none, 1060, true⟩).map TickOut.attempted =
        some (some recWater)) := by
  refine ⟨⟨by norm_num, ?_⟩, ⟨by norm_num, ?_⟩, by decide, by norm_num, ?_⟩
  · simpa using c1_amended_gate_behaviour.1 1700000000 true (by norm_num)
  · exact c1_amended_gate_behaviour.2.1 ⟨1000, recWater⟩ 1030 true (by norm_num)
  · exact c1_amended_gate_behaviour.2.2 ⟨1000, recWater⟩ 1060 true (by decide)
      (by norm_num)

/-- C3: any line containing the token "Temp: NA" and no other field
pattern or NA token parses to the record whose `water_temp` key is
explicitly `None` and whose other keys are absent; that record is a
non-empty dict, so under the any-field-present gate an upload of it is
attempted at every eligible tick; and the `None` field contributes no
`fieldN` parameter, leaving only `api_key` in the outbound payload. -/
theorem c3_na_only_line (line : List Char)
    (hna : hasSubstr ("Temp: NA".toList) line = true)
    (htc : tempCapture line = none)
    (hwc : waterCapture line = none)
    (hwna : hasSubstr ("Water: NA".toList) line = false)
    (hsc : soundCapture line = none)
    (hsna : hasSubstr ("Sound: NA".toList) line = false)
    (hlc : lightCapture line = none)
    (hlna : hasSubstr ("Light: NA".toList) line = false) :
    parse_sensor_data line = some recNA ∧
    recordNonempty recNA = true ∧
    (∀ intervalSecs ls now : ℚ, ∀ nk : Bool, intervalSecs ≤ now - ls →
      (sendPhase intervalSecs ⟨ls, recNA⟩ now nk).attempted = some recNA) ∧
    (∀ k : String, thingspeakPayload k recNA = [("api_key", PValue.str k)]) := by
  refine ⟨?_, by decide, ?_, ?_⟩
  · simp only [parse_sensor_data, tempField, waterLevelField, soundField,
      lightField, htc, hwc, hsc, hlc, hna, hwna, hsna, hlna, recNA,
      Bool.false_eq_true, if_true, if_false, ite_true, ite_false]
  · intro intervalSecs ls now nk h
    have hne : recordNonempty recNA = true := by decide
    rw [sendPhase_eligible intervalSecs ⟨ls, recNA⟩ now nk hne h]
    cases nk <;> simp
  · intro k
    simp [thingspeakPayload, tempEntry, intEntry, recNA]

/-- C3 (witness): the exact line "Temp: NA", gate state `last_send` = 0 at
wall time 120 with a 60 s interval, API key "KEY". -/
theorem c3_na_only_line_witness :
    hasSubstr ("Temp: NA".toList) ("Temp: NA".toList) = true ∧
    parse_sensor_data ("Temp: NA".toList) = some recNA ∧
    ((60 : ℚ) ≤ 120 - 0 ∧
      (sendPhase 60 ⟨0, recNA⟩ 120 true).attempted = some recNA) ∧
    thingspeakPayload "KEY" recNA = [("api_key", PValue.str "KEY")] := by
  have h := c3_na_only_line ("Temp: NA".toList) (by decide) (by decide)
    (by decide) (by decide) (by decide) (by decide) (by decide) (by decide)
  exact ⟨by decide, h.1, ⟨by norm_num, h.2.2.1 60 0 120 true (by norm_num)⟩,
    h.2.2.2 "KEY"⟩

/-- C7: if an upload attempt at an eligible tick fails, the whole loop
state — `last_send` and the held record — is unchanged and the retry
warning is logged; and at any later tick with no new line at which the
elapsed-interval condition holds, the identical held record is attempted
again. -/
theorem c7_failed_upload_retries (intervalSecs : ℚ) (s : LoopState)
    (now now2 : ℚ) (nk2 : Bool)
    (hne : recordNonempty s.latest_data = true)
    (h1 : intervalSecs ≤ now - s.last_send)
    (h2 : intervalSecs ≤ now2 - s.last_send) :
    stepTick intervalSecs s ⟨none, now, false⟩ =
      some ⟨s, some s.latest_data, false, true⟩ ∧
    (stepTick intervalSecs s ⟨none, now2, nk2⟩).map TickOut.attempted =
      some (some s.latest_data) := by
  constructor
  · rw [stepTick_no_line, sendPhase_eligible intervalSecs s now false hne h1]
    simp
  · rw [stepTick_no_line, sendPhase_eligible intervalSecs s now2 nk2 hne h2]
    cases nk2 <;> simp

/-- C7 (witness): 60 s interval, record "Water: 50%" held with
`last_send` = 0, failed attempt at wall time 60, retried at 60.5. -/
theorem c7_failed_upload_retries_witness :
    recordNonempty (⟨0, recWater⟩ : LoopState).latest_data = true ∧
    (60 : ℚ) ≤ 60 - (0 : ℚ) ∧ (60 : ℚ) ≤ 121 / 2 - (0 : ℚ) ∧
    stepTick 60 ⟨0, recWater⟩ ⟨none, 60, false⟩ =
      some ⟨⟨0, recWater⟩, some recWater, false, true⟩ ∧
    (stepTick 60 ⟨0, recWater⟩ ⟨none, 121 / 2, true⟩).map TickOut.attempted =
      some (some recWater) := by
  have h := c7_failed_upload_retries 60 ⟨0, recWater⟩ 60 (121 / 2) true
    (by decide) (by norm_num) (by norm_num)
  exact ⟨by decide, by norm_num, by norm_num, by simpa using h.1,
    by simpa using h.2⟩

lemma mem_tempEntry_iff (wt : Option (Option ℚ)) (q : ℚ) :
    (("field1", PValue.rat q) ∈ tempEntry wt) ↔ wt = some (some q) := by
  rcases wt with _ | (_ | v) <;> simp [tempEntry, eq_comm]

lemma mem_intEntry_iff (nm : String) (wl : Option (Option ℤ)) (z : ℤ) :
    ((nm, PValue.int z) ∈ intEntry nm wl) ↔ wl = some (some z) := by
  rcases wl with _ | (_ | v) <;> simp [intEntry, eq_comm]

lemma mem_tempEntry_name (wt : Option (Option ℚ)) (kv : String × PValue)
    (h : kv ∈ tempEntry wt) : kv.1 = "field1" := by
  rcases wt with _ | (_ | v) <;> simp [tempEntry] at h
  simp [h]

lemma mem_intEntry_name (nm : String) (wl : Option (Option ℤ))
    (kv : String × PValue) (h : kv ∈ intEntry nm wl) : kv.1 = nm := by
  rcases wl with _ | (_ | v) <;> simp [intEntry] at h
  simp [h]

lemma rat_not_mem_intEntry (nm s : String) (q : ℚ) (wl : Option (Option ℤ)) :
    ¬((s, PValue.rat q) ∈ intEntry nm wl) := by
  rcases wl with _ | (_ | v) <;> simp [intEntry]

lemma int_not_mem_tempEntry (s : String) (z : ℤ) (wt : Option (Option ℚ)) :
    ¬((s, PValue.int z) ∈ tempEntry wt) := by
  rcases wt with _ | (_ | v) <;> simp [tempEntry]

lemma not_mem_intEntry_of_ne (nm nm2 : String) (hne : nm2 ≠ nm) (v : PValue)
    (wl : Option (Option ℤ)) : ¬((nm2, v) ∈ intEntry nm wl) := by
  intro h
  exact hne (mem_intEntry_name nm wl (nm2, v) h)

/-- C6: for every record d and API key k, the query payload contains
api_key = k; a parameter `field1`/`field2`/`field3`/`field4` with value v
is present iff the corresponding field (water_temp, water_level, light,
sound respectively) is a key of d with the non-null value v; and every
parameter key is one of these five. -/
theorem c6_payload_mapping (k : String) (d : SensorRecord) :
    (("api_key", PValue.str k) ∈ thingspeakPayload k d) ∧
    (∀ q : ℚ, (("field1", PValue.rat q) ∈ thingspeakPayload k d) ↔
      d.water_temp = some (some q)) ∧
    (∀ z : ℤ, (("field2", PValue.int z) ∈ thingspeakPayload k d) ↔
      d.water_level = some (some z)) ∧
    (∀ z : ℤ, (("field3", PValue.int z) ∈ thingspeakPayload k d) ↔
      d.light = some (some z)) ∧
    (∀ z : ℤ, (("field4", PValue.int z) ∈ thingspeakPayload k d) ↔
      d.sound = some (some z)) ∧
    (∀ kv : String × PValue, kv ∈ thingspeakPayload k d →
      kv.1 = "api_key" ∨ kv.1 = "field1" ∨ kv.1 = "field2" ∨
        kv.1 = "field3" ∨ kv.1 = "field4") := by
  refine ⟨?_, ?_, ?_, ?_, ?_, ?_⟩
  · simp [thingspeakPayload]
  · intro q
    simp [thingspeakPayload, List.mem_cons, List.mem_append,
      mem_tempEntry_iff, rat_not_mem_intEntry, Prod.ext_iff]
  · intro z
    simp [thingspeakPayload, List.mem_cons, List.mem_append,
      mem_intEntry_iff, int_not_mem_tempEntry,
      not_mem_intEntry_of_ne "field3" "field2" (by decide),
      not_mem_intEntry_of_ne "field4" "field2" (by decide), Prod.ext_iff]
  · intro z
    simp [thingspeakPayload, List.mem_cons, List.mem_append,
      mem_intEntry_iff, int_not_mem_tempEntry,
      not_mem_intEntry_of_ne "field2" "field3" (by decide),
      not_mem_intEntry_of_ne "field4" "field3" (by decide), Prod.ext_iff]
  · intro z
    simp [thingspeakPayload, List.mem_cons, List.mem_append,
      mem_intEntry_iff, int_not_mem_tempEntry,
      not_mem_intEntry_of_ne "field2" "field4" (by decide),
      not_mem_intEntry_of_ne "field3" "field4" (by decide), Prod.ext_iff]
  · intro kv h
    rcases List.mem_cons.mp h with h1 | h2
    · left; simp [h1]
    · rcases List.mem_append.mp h2 with h3 | h4
      · rcases List.mem_append.mp h3 with h5 | h6
        · rcases List.mem_append.mp h5 with h7 | h8
          · right; left; exact mem_tempEntry_name _ _ h7
          · right; right; left; exact mem_intEntry_name _ _ _ h8
        · right; right; right; left; exact mem_intEntry_name _ _ _ h6
      · right; right; right; right; exact mem_intEntry_name _ _ _ h4

/-- C6 (witness): concrete payload for key "KEY" and the record parsed
from "Water: 50%": the `field2` entry is a member, and the key-coverage
conjunct applies to it. -/
theorem c6_payload_mapping_witness :
    (("field2", PValue.int 50) ∈ thingspeakPayload "KEY" recWater) ∧
    (("field2", PValue.int 50).1 = "api_key" ∨
      ("field2", PValue.int 50).1 = "field1" ∨
      ("field2", PValue.int 50).1 = "field2" ∨
      ("field2", PValue.int 50).1 = "field3" ∨
      ("field2", PValue.int 50).1 = "field4") := by
  have hm : ("field2", PValue.int 50) ∈ thingspeakPayload "KEY" recWater := by
    simp [thingspeakPayload, intEntry, tempEntry, recWater]
  exact ⟨hm, (c6_payload_mapping "KEY" recWater).2.2.2.2.2 _ hm⟩

/-- The record parsed from the single-field line "Sound: 45%". -/
def recSound : SensorRecord := ⟨none, none, some (some 45), none⟩

/-- C9: the latest-record slot is only ever overwritten with a non-empty
parse result — after any non-crashing tick the slot either still holds the
old record or holds some line's parse result that is non-empty — a
non-empty slot stays non-empty across one tick (failed or skipped uploads
included), and hence stays non-empty for the rest of any run. -/
theorem c9_slot_invariant (intervalSecs : ℚ) :
    (∀ s : LoopState, ∀ tk : Tick, ∀ out : TickOut,
      stepTick intervalSecs s tk = some out →
      out.state.latest_data = s.latest_data ∨
        (∃ raw, tk.line = some raw ∧
          parse_sensor_data (pyStrip raw) = some out.state.latest_data ∧
          recordNonempty out.state.latest_data = true)) ∧
    (∀ s : LoopState, ∀ tk : Tick, ∀ out : TickOut,
      stepTick intervalSecs s tk = some out →
      recordNonempty s.latest_data = true →
      recordNonempty out.state.latest_data = true) ∧
    (∀ ts : List Tick, ∀ s s2 : LoopState,
      runTicks intervalSecs s ts = some s2 →
      recordNonempty s.latest_data = true →
      recordNonempty s2.latest_data = true) := by
  have A : ∀ s : LoopState, ∀ tk : Tick, ∀ out : TickOut,
      stepTick intervalSecs s tk = some out →
      out.state.latest_data = s.latest_data ∨
        (∃ raw, tk.line = some raw ∧
          parse_sensor_data (pyStrip raw) = some out.state.latest_data ∧
          recordNonempty out.state.latest_data = true) := by
    intro s tk out h
    obtain ⟨line, now, nk⟩ := tk
    cases line with
    | none =>
      rw [stepTick_no_line] at h
      obtain rfl := (Option.some.inj h).symm
      left
      exact sendPhase_latest_data intervalSecs s now nk
    | some raw =>
      simp only [stepTick] at h
      split at h
      · obtain rfl := (Option.some.inj h).symm
        left; rfl
      · cases hp : parse_sensor_data (pyStrip raw) with
        | none => rw [hp] at h; cases h
        | some d =>
          rw [hp] at h
          obtain rfl := (Option.some.inj h).symm
          cases hnd : recordNonempty d with
          | false =>
            left
            rw [sendPhase_latest_data]
            simp [hnd]
          | true =>
            right
            refine ⟨raw, rfl, ?_, ?_⟩
            · rw [sendPhase_latest_data]
              simp [hnd, hp]
            · rw [sendPhase_latest_data]
              simp [hnd]
  have B : ∀ s : LoopState, ∀ tk : Tick, ∀ out : TickOut,
      stepTick intervalSecs s tk = some out →
      recordNonempty s.latest_data = true →
      recordNonempty out.state.latest_data = true := by
    intro s tk out h hne
    rcases A s tk out h with he | ⟨_, _, _, hn⟩
    · rw [he]; exact hne
    · exact hn
  refine ⟨A, B, ?_⟩
  intro ts
  induction ts with
  | nil =>
    intro s s2 h hne
    simp only [runTicks] at h
    obtain rfl := Option.some.inj h
    exact hne
  | cons tk rest ih =>
    intro s s2 h hne
    simp only [runTicks] at h
    cases ho : stepTick intervalSecs s tk with
    | none => rw [ho] at h; cases h
    | some o =>
      rw [ho] at h
      exact ih o.state s2 h (B s tk o ho hne)

/-- C9 (witness): a one-tick run from a state holding the "Water: 50%"
record through a tick whose line "Sound: 45%" overwrites the slot before
the interval has elapsed; the slot ends non-empty. -/
theorem c9_slot_invariant_witness :
    runTicks 60 ⟨0, recWater⟩ [⟨some ("Sound: 45%".toList), 10, true⟩] =
      some ⟨0, recSound⟩ ∧
    recordNonempty (⟨0, recWater⟩ : LoopState).latest_data = true ∧
    recordNonempty (⟨0, recSound⟩ : LoopState).latest_data = true := by
  have hstep : stepTick 60 ⟨0, recWater⟩ ⟨some ("Sound: 45%".toList), 10, true⟩ =
      some ⟨⟨0, recSound⟩, none, false, false⟩ := by
    rw [stepTick_good_line 60 ⟨0, recWater⟩ _ 10 true recSound (by decide)
      (by decide) (by decide) (by decide)]
    rw [sendPhase_too_early 60 ⟨0, recSound⟩ 10 true (by norm_num)]
  have hrun : runTicks 60 ⟨0, recWater⟩
      [⟨some ("Sound: 45%".toList), 10, true⟩] = some ⟨0, recSound⟩ := by
    simp only [runTicks, hstep]
  exact ⟨hrun, by decide,
    (c9_slot_invariant 60).2.2 _ ⟨0, recWater⟩ ⟨0, recSound⟩ hrun (by decide)⟩

/-- C10: in `parse_sensor_data`, each field's numeric pattern takes
precedence over its NA token: whenever the pattern matches (capture g),
the field is set from the numeric value of g — for temperature, provided
`float` accepts g, which the overall success of the parse guarantees —
regardless of any NA token in the line; the NA substring test is consulted
only when the pattern does not match. -/
theorem c10_numeric_precedence (line : List Char) (r : SensorRecord)
    (h : parse_sensor_data line = some r) :
    (∀ g, tempCapture line = some g →
      ∃ q, pyFloatDD g = some q ∧ r.water_temp = some (some q)) ∧
    (tempCapture line = none →
      r.water_temp =
        if hasSubstr ("Temp: NA".toList) line then some none else none) ∧
    (∀ g, waterCapture line = some g →
      r.water_level = some (some (pyDigitsVal g))) ∧
    (waterCapture line = none →
      r.water_level =
        if hasSubstr ("Water: NA".toList) line then some none else none) ∧
    (∀ g, soundCapture line = some g →
      r.sound = some (some (pyDigitsVal g))) ∧
    (soundCapture line = none →
      r.sound =
        if hasSubstr ("Sound: NA".toList) line then some none else none) ∧
    (∀ g, lightCapture line = some g →
      r.light = some (some (pyDigitsVal g))) ∧
    (lightCapture line = none →
      r.light =
        if hasSubstr ("Light: NA".toList) line then some none else none) := by
  have hr : ∃ wtv, tempField line = some wtv ∧
      r = ⟨wtv, waterLevelField line, soundField line, lightField line⟩ := by
    cases ht : tempField line with
    | none => simp only [parse_sensor_data, ht] at h; cases h
    | some wtv =>
      simp only [parse_sensor_data, ht] at h
      exact ⟨wtv, rfl, (Option.some.inj h).symm⟩
  obtain ⟨wtv, ht, rfl⟩ := hr
  refine ⟨?_, ?_, ?_, ?_, ?_, ?_, ?_, ?_⟩
  · intro g hg
    simp only [tempField, hg] at ht
    cases hq : pyFloatDD g with
    | none => rw [hq] at ht; cases ht
    | some q =>
      rw [hq] at ht
      obtain rfl := Option.some.inj ht
      exact ⟨q, rfl, rfl⟩
  · intro hg
    simp only [tempField, hg] at ht
    obtain rfl := Option.some.inj ht
    rfl
  · intro g hg
    simp only [waterLevelField, hg]
  · intro hg
    simp only [waterLevelField, hg]
  · intro g hg
    simp only [soundField, hg]
  · intro hg
    simp only [soundField, hg]
  · intro g hg
    simp only [lightField, hg]
  · intro hg
    simp only [lightField, hg]

/-- C10 (witness): the line "Temp: 25.0C Temp: NA" contains both the
temperature pattern and the temperature NA token; the parsed record binds
water_temp to the numeric 25.0, not to `None`. -/
theorem c10_numeric_precedence_witness :
    parse_sensor_data ("Temp: 25.0C Temp: NA".toList) =
      some ⟨some (some 25), none, none, none⟩ ∧
    hasSubstr ("Temp: NA".toList) ("Temp: 25.0C Temp: NA".toList) = true ∧
    tempCapture ("Temp: 25.0C Temp: NA".toList) = some ("25.0".toList) ∧
    (∃ q, pyFloatDD ("25.0".toList) = some q ∧
      (⟨some (some 25), none, none, none⟩ : SensorRecord).water_temp =
        some (some q)) := by
  have hf : pyFloatDD ("25.0".toList) = some 25 := by
    rw [pyFloatDD, (by decide : pyFloatParts ("25.0".toList) = some (250, 1))]
    norm_num [Option.map_some]
  have hc : tempCapture ("Temp: 25.0C Temp: NA".toList) =
      some ("25.0".toList) := by decide
  have h1 : tempField ("Temp: 25.0C Temp: NA".toList) =
      some (some (some 25)) := by
    simp only [tempField, hc, hf]
  have hp : parse_sensor_data ("Temp: 25.0C Temp: NA".toList) =
      some ⟨some (some 25), none, none, none⟩ := by
    simp only [parse_sensor_data, h1,
      (by decide : waterLevelField ("Temp: 25.0C Temp: NA".toList) = none),
      (by decide : soundField ("Temp: 25.0C Temp: NA".toList) = none),
      (by decide : lightField ("Temp: 25.0C Temp: NA".toList) = none)]
  exact ⟨hp, by decide, hc,
    (c10_numeric_precedence _ _ hp).1 ("25.0".toList) hc⟩

/-- The spec's list of fatal configuration conditions (§7(a), §6): file
missing, content unparsable, send interval not interpretable as a number
or not strictly positive, api key absent or empty.  Written from the
spec's words, to be compared with `load_config`. -/
def specFatalCond : ConfigSource → Prop
  | ConfigSource.missing => True
  | ConfigSource.unparsable => True
  | ConfigSource.parsed f =>
    (match pyFloatOfYVal (mergedInterval f) with
     | none => True
     | some m => m ≤ 0) ∨
    f.thingspeak_api_key = none ∨ f.thingspeak_api_key = some ""

/-- C8: `load_config` raises (errors) exactly under the spec's fatal
conditions — missing file, unparsable content, `send_interval_minutes`
not interpretable as a number or not strictly positive, or
`thingspeak_api_key` absent or empty — and otherwise returns the defaults
merged with the file's mapping, with `send_interval_minutes` coerced by
`float()` to a strictly positive rational. -/
theorem c8_load_config_errors :
    (∀ cs : ConfigSource,
      (∃ e, load_config cs = Except.error e) ↔ specFatalCond cs) ∧
    (∀ f : ConfigFile, ∀ c : Config,
      load_config (ConfigSource.parsed f) = Except.ok c →
      f.thingspeak_api_key = some c.thingspeak_api_key ∧
      c.serial_port = f.serial_port.getD (some "/dev/ttyACM0") ∧
      c.baud_rate = f.baud_rate.getD (some 115200) ∧
      pyFloatOfYVal (mergedInterval f) = some c.send_interval_minutes ∧
      0 < c.send_interval_minutes) := by
  constructor
  · intro cs
    cases cs with
    | missing => simp [load_config, specFatalCond]
    | unparsable => simp [load_config, specFatalCond]
    | parsed f =>
      simp only [load_config, specFatalCond]
      cases hm : pyFloatOfYVal (mergedInterval f) with
      | none => simp
      | some m =>
        by_cases hm0 : m ≤ 0
        · simp [hm0]
        · cases hk : f.thingspeak_api_key with
          | none => simp [hm0, not_le.mp hm0]
          | some k =>
            by_cases hk0 : k = "" <;>
              simp [hm0, hk0, not_le.mp hm0, le_of_lt]
  · intro f c h
    simp only [load_config] at h
    cases hm : pyFloatOfYVal (mergedInterval f) with
    | none => simp only [hm] at h; cases h
    | some m =>
      simp only [hm] at h
      split_ifs at h with hm0
      cases hk : f.thingspeak_api_key with
      | none => simp only [hk] at h; cases h
      | some k =>
        simp only [hk] at h
        split_ifs at h with hk0
        injection h with h2
        subst h2
        refine ⟨?_, ?_, ?_, ?_, ?_⟩ <;> simp [hk, hm, not_le.mp hm0]

/-- A concrete well-formed configuration file: api key "KEY" and a
3-minute interval, other keys left to their defaults. -/
def cfgFileW : ConfigFile := ⟨some "KEY", none, none, some (YVal.ynum 3)⟩

/-- The settings record `load_config` builds from `cfgFileW`. -/
def cfgW : Config := ⟨"KEY", some "/dev/ttyACM0", some 115200, 3⟩

/-- A configuration file whose `send_interval_minutes` is the non-numeric
string "abc", on which `float()` raises. -/
def cfgFileBad : ConfigFile := ⟨some "KEY", none, none, some (YVal.ystr "abc")⟩

/-- C8 (witness): `load_config` accepts `cfgFileW` and the merge
conclusions hold for the resulting settings record, while the
non-numeric-interval file `cfgFileBad` satisfies the fatal condition and
is rejected. -/
theorem c8_load_config_errors_witness :
    load_config (ConfigSource.parsed cfgFileW) = Except.ok cfgW ∧
    (cfgFileW.thingspeak_api_key = some cfgW.thingspeak_api_key ∧
      cfgW.serial_port = cfgFileW.serial_port.getD (some "/dev/ttyACM0") ∧
      cfgW.baud_rate = cfgFileW.baud_rate.getD (some 115200) ∧
      pyFloatOfYVal (mergedInterval cfgFileW) = some cfgW.send_interval_minutes ∧
      0 < cfgW.send_interval_minutes) ∧
    pyFloatOfYVal (YVal.ystr "abc") = none ∧
    (∃ e, load_config (ConfigSource.parsed cfgFileBad) = Except.error e) := by
  have h : load_config (ConfigSource.parsed cfgFileW) = Except.ok cfgW := by
    norm_num [load_config, mergedInterval, pyFloatOfYVal, pyFloatLit,
      pyFloatDD, pyFloatParts, pyStrip, pyDigitsVal, cfgFileW, cfgW,
      Option.getD]
    exact fun hcon => absurd hcon (by decide)
  have hbad : specFatalCond (ConfigSource.parsed cfgFileBad) := by
    left
    rw [(by decide : pyFloatOfYVal (mergedInterval cfgFileBad) = none)]
    exact trivial
  exact ⟨h, c8_load_config_errors.2 cfgFileW cfgW h, by decide,
    (c8_load_config_errors.1 (ConfigSource.parsed cfgFileBad)).mpr hbad⟩

/-- C4 (counterexample): the byte 0xFF can never occur in well-formed
UTF-8, yet decoding the single-byte line [0xFF] with
`decode("utf-8", errors="ignore")` yields the empty string — the byte is
silently dropped, and no replacement marker U+FFFD appears; likewise the
undecodable byte inside [72, 105, 0xFF, 33] vanishes, leaving "Hi!".
This refutes the claim that each undecodable byte yields a replacement
marker rather than being dropped. -/
theorem c4_counterexample_byte_dropped :
    decodeUtf8Ignore [255] = [] ∧
    Char.ofNat 65533 ∉ decodeUtf8Ignore [255] ∧
    decodeUtf8Ignore [72, 105, 255, 33] = "Hi!".toList := by
  refine ⟨by decide, by decide, by decide⟩

set_option maxRecDepth 8192 in
/-- C4 (amended): decoding never raises — it is a total function — and
ASCII bytes decode to themselves, but a lone byte that is not valid UTF-8
is silently dropped (errors="ignore"), contributing nothing to the
decoded line: no replacement marker is emitted. -/
theorem c4_amended_ignore_semantics :
    (∀ b : ℕ, b < 128 → decodeUtf8Ignore [b] = [Char.ofNat b]) ∧
    (∀ b : ℕ, b < 256 → 128 ≤ b → decodeUtf8Ignore [b] = []) := by
  exact ⟨by decide, by decide⟩

/-- C4 (witness for the amended theorem): the ASCII byte 65 decodes to
itself and the invalid byte 255 decodes to nothing. -/
theorem c4_amended_ignore_semantics_witness :
    ((65 : ℕ) < 128 ∧ decodeUtf8Ignore [65] = [Char.ofNat 65]) ∧
    ((255 : ℕ) < 256 ∧ (128 : ℕ) ≤ 255 ∧ decodeUtf8Ignore [255] = []) :=
  ⟨⟨by norm_num, c4_amended_ignore_semantics.1 65 (by norm_num)⟩,
    ⟨by norm_num, by norm_num,
      c4_amended_ignore_semantics.2 255 (by norm_num) (by norm_num)⟩⟩
